import Mathlib

/-!
Verification of the manifest-driven geospatial dashboard (`web/map.js` and its
variant entrypoints).  The definitions below are a shallow embedding of the
pure parts of the source: subpart normalization, icon-file inference, the
facility icon resolver, viewport clamping, tooltip formatting, and the
manifest-to-layer composition pass.  JavaScript numbers are modelled as exact
rationals, absent (`undefined`/`null`) values as `Option`, and the JS falsy
coalescing `x || d` as explicit helper functions.  String algorithms are
modelled structurally over `List Char` (the character content of the JS
strings) so that every definition evaluates by kernel reduction.
-/

namespace VaGhgDashboard

/-- JS `String.prototype.split(',')`: cut the character list at every comma.
Adjacent commas yield empty pieces and the empty string yields one empty
piece, exactly as in JavaScript. -/
def splitOnComma : List Char → List (List Char)
  | [] => [[]]
  | c :: cs =>
    if c = ',' then [] :: splitOnComma cs
    else
      match splitOnComma cs with
      | [] => [[c]]
      | t :: ts => (c :: t) :: ts

/-- JS `String.prototype.trim()`: drop leading and trailing whitespace. -/
def trimChars (part : List Char) : List Char :=
  ((part.dropWhile Char.isWhitespace).reverse.dropWhile Char.isWhitespace).reverse

/-- One entry of the normalization pipeline of `normalizeSubparts`:
`part.trim().toUpperCase()`. -/
def trimUpper (part : List Char) : List Char :=
  (trimChars part).map Char.toUpper

/-- The token list produced by `normalizeSubparts` in `web/map.js` before
sorting: split the raw string on commas, trim and upper-case each part, and
drop empty parts (`.filter(Boolean)`). -/
def subpartTokens (subparts : String) : List (List Char) :=
  ((splitOnComma subparts.data).map trimUpper).filter (fun part => !part.isEmpty)

/-- JS `Array.prototype.join(',')` on a list of string pieces. -/
def joinCommas : List (List Char) → List Char
  | [] => []
  | [part] => part
  | part :: parts => part ++ ',' :: joinCommas parts

/-- `normalizeSubparts` from `web/map.js`: split on commas, trim, upper-case,
drop empty parts, sort with the default lexicographic string order
(JS `Array.prototype.sort`), and re-join with single commas.  The source
applies `String(subparts || '')` first; an absent value is handled by
`normalizeSubpartsOpt` below. -/
def normalizeSubparts (subparts : String) : String :=
  ⟨joinCommas (List.insertionSort (fun a b => a ≤ b) (subpartTokens subparts))⟩

/-- `normalizeSubparts` applied to a possibly-absent `subparts` property:
`String(subparts || '')` turns an absent value into the empty string. -/
def normalizeSubpartsOpt (subparts : Option String) : String :=
  normalizeSubparts (subparts.getD "")

example : normalizeSubparts "c, D" = "C,D" := by decide
example : normalizeSubparts "D,C" = "C,D" := by decide
example : normalizeSubparts "d, c, C" = "C,C,D" := by decide
example : normalizeSubparts "" = "" := by decide

/-- C1, counterexample.  `normalizeSubparts` does not collapse duplicate
codes: the spec example `normalize("d, c, C")` yields `"C,C,D"` whereas
`normalize("c, D")` yields `"C,D"`, so the two canonical keys differ. -/
theorem normalizeSubparts_duplicate_counterexample :
    normalizeSubparts "d, c, C" ≠ normalizeSubparts "c, D" := by decide

/-- C1, amended.  Subpart normalization is invariant under permutation,
letter case, and incidental whitespace, but preserves duplicates: any two
raw strings whose trimmed upper-cased token lists are permutations of each
other (duplicates counted) normalize to the same canonical key. -/
theorem normalizeSubparts_perm_invariant (a b : String)
    (h : List.Perm (subpartTokens a) (subpartTokens b)) :
    normalizeSubparts a = normalizeSubparts b := by
  have hs : List.insertionSort (fun a b => a ≤ b) (subpartTokens a)
      = List.insertionSort (fun a b => a ≤ b) (subpartTokens b) := by
    refine List.eq_of_perm_of_sorted ?_ (List.sorted_insertionSort _ _)
      (List.sorted_insertionSort _ _)
    exact (List.perm_insertionSort _ _).trans (h.trans (List.perm_insertionSort _ _).symm)
  unfold normalizeSubparts
  rw [hs]

/-- C1, witness for the amended theorem at the spec's own example pair:
`"c, D"` and `"D,C"` tokenize to permutations of each other, and their
canonical keys agree (both are `"C,D"`). -/
theorem normalizeSubparts_perm_invariant_witness :
    List.Perm (subpartTokens "c, D") (subpartTokens "D,C") ∧
      normalizeSubparts "c, D" = normalizeSubparts "D,C" :=
  ⟨by decide, normalizeSubparts_perm_invariant "c, D" "D,C" (by decide)⟩

/-! ### Data model

The manifest and feature records, with every field that the source reads
through a loosely-typed path made `Option`al. -/

/-- The `bounds` array `[minLon, minLat, maxLon, maxLat]` of the manifest. -/
structure Bounds where
  minLon : ℚ
  minLat : ℚ
  maxLon : ℚ
  maxLat : ℚ
deriving DecidableEq

/-- The `files` mapping of the manifest; each key may be missing. -/
structure ManifestFiles where
  boundary : Option String := none
  pipelines : Option String := none
  railroads : Option String := none
  primary_roads : Option String := none
  incorporated_places : Option String := none
  principal_ports : Option String := none
  ghg : Option String := none
deriving DecidableEq

/-- The `icons` section of the manifest. -/
structure IconsConfig where
  base_dir : Option String := none
  default : Option String := none
  by_subparts : Option (List (String × String)) := none
deriving DecidableEq

/-- The root manifest object. -/
structure Manifest where
  files : Option ManifestFiles := none
  bounds : Option Bounds := none
  center : Option (ℚ × ℚ) := none
  terrain_exaggeration : Option ℚ := none
  icons : Option IconsConfig := none
deriving DecidableEq

/-- The `properties` bag of a facility feature. -/
structure FacilityProps where
  facility_name : Option String := none
  subparts : Option String := none
  ghg_quantity_metric_tons_co2e : Option ℚ := none
  radius_m : Option ℚ := none
deriving DecidableEq

/-- A GeoJSON point feature (`geometry.coordinates` plus `properties`). -/
structure Feature where
  coordinates : ℚ × ℚ := (0, 0)
  properties : Option FacilityProps := none
deriving DecidableEq

/-- The icon descriptor returned by the resolver in `web/map.js`. -/
structure IconDescriptor where
  url : String
  width : Nat
  height : Nat
  anchorY : Nat
  mask : Bool
deriving DecidableEq

/-- JS `x || fallback` on a possibly-absent string: an absent value and the
empty string (both falsy) select the fallback. -/
def jsOrString (value : Option String) (fallback : String) : String :=
  match value with
  | none => fallback
  | some s => if s = "" then fallback else s

/-! ### Icon resolution -/

/-- `iconNameToFile` from `web/map.js`: a non-string or empty configured
name falls back to `manufacturing.jpg`; a name containing a dot is used
verbatim; otherwise `.png` is appended. -/
def iconNameToFile (iconName : String) : String :=
  if iconName = "" then "manufacturing.jpg"
  else if iconName.data.contains '.' then iconName
  else iconName ++ ".png"

/-- The all-absent icon configuration, JS `manifest.icons || {}`. -/
def emptyIconsConfig : IconsConfig := {}

/-- The lookup table built by `buildFacilityIconResolver`: each raw
`by_subparts` key is normalized and its icon name resolved to a file name.
Repeated assignment to the same normalized key overwrites, which the
last-match lookup below reproduces. -/
def iconTable (iconConfig : IconsConfig) : List (String × String) :=
  (iconConfig.by_subparts.getD []).map
    (fun kv => (normalizeSubparts kv.1, iconNameToFile kv.2))

/-- JS object indexing `bySubparts[subparts]`: the value of the last
assignment to that key, or absent. -/
def jsObjectLookup (table : List (String × String)) (key : String) : Option String :=
  (table.reverse.find? (fun kv => kv.1 == key)).map (fun kv => kv.2)

/-- `buildFacilityIconResolver` from `web/map.js`, applied to a feature:
normalize the feature's `subparts`, look the canonical key up in the
normalized `by_subparts` table, fall back to the default icon, and wrap the
file in a fixed-size descriptor under `base_dir`. -/
def buildFacilityIconResolver (manifest : Manifest) (feature : Feature) : IconDescriptor :=
  let iconConfig := manifest.icons.getD emptyIconsConfig
  let iconsBaseDir := jsOrString iconConfig.base_dir "geo-icons"
  let defaultIconName := jsOrString iconConfig.default "manufacturing"
  let bySubparts := iconTable iconConfig
  let defaultIconFile := iconNameToFile defaultIconName
  let subparts := normalizeSubpartsOpt (feature.properties.bind FacilityProps.subparts)
  let iconFile := jsOrString (jsObjectLookup bySubparts subparts) defaultIconFile
  { url := "../" ++ iconsBaseDir ++ "/" ++ iconFile
    width := 128
    height := 128
    anchorY := 128
    mask := false }

example : iconNameToFile "manufacturing" = "manufacturing.png" := by decide
example : iconNameToFile "terminal.svg" = "terminal.svg" := by decide
example : iconNameToFile "" = "manufacturing.jpg" := by decide

/-- The resolved icon file name is never the empty string, so the falsy
fallback `bySubparts[subparts] || defaultIconFile` keeps a genuine table
hit. -/
theorem iconNameToFile_ne_empty (iconName : String) : iconNameToFile iconName ≠ "" := by
  unfold iconNameToFile
  split_ifs with h1 h2
  · decide
  · exact h1
  · intro h
    have h3 : (iconName ++ ".png").data = "".data := congrArg String.data h
    simp [String.data_append] at h3

/-- Unfolding of `buildFacilityIconResolver`: the descriptor it returns,
with the table lookup and falsy fallbacks made explicit. -/
theorem buildFacilityIconResolver_eq (manifest : Manifest) (feature : Feature) :
    buildFacilityIconResolver manifest feature =
      { url := "../" ++ jsOrString (manifest.icons.getD emptyIconsConfig).base_dir "geo-icons"
            ++ "/" ++ jsOrString
              (jsObjectLookup (iconTable (manifest.icons.getD emptyIconsConfig))
                (normalizeSubpartsOpt (feature.properties.bind FacilityProps.subparts)))
              (iconNameToFile
                (jsOrString (manifest.icons.getD emptyIconsConfig).default "manufacturing")),
        width := 128, height := 128, anchorY := 128, mask := false } := rfl

/-- C8, counterexample.  The empty configured icon name does not get the
image extension appended: `iconNameToFile` maps it to the fixed fallback
`"manufacturing.jpg"`, not to `"" ++ ".png"`. -/
theorem iconNameToFile_empty_counterexample :
    iconNameToFile "" ≠ "" ++ ".png" := by decide

/-- C8, amended.  For every non-empty configured icon name, filename
inference returns the name verbatim when it contains a dot and appends the
fixed `.png` extension otherwise; the empty (or non-string) configured name
instead falls back to the fixed file `manufacturing.jpg`. -/
theorem iconNameToFile_spec (iconName : String) :
    (iconName = "" → iconNameToFile iconName = "manufacturing.jpg") ∧
    (iconName ≠ "" → iconName.data.contains '.' = true → iconNameToFile iconName = iconName) ∧
    (iconName ≠ "" → iconName.data.contains '.' = false →
      iconNameToFile iconName = iconName ++ ".png") := by
  refine ⟨fun h1 => ?_, fun h1 h2 => ?_, fun h1 h2 => ?_⟩
  · simp [iconNameToFile, h1]
  · unfold iconNameToFile
    rw [if_neg h1, if_pos h2]
  · unfold iconNameToFile
    rw [if_neg h1, if_neg (by rw [h2]; exact Bool.false_ne_true)]

/-- C8, witness: the two branches of the amended statement evaluated at
concrete configured names. -/
theorem iconNameToFile_spec_witness :
    iconNameToFile "manufacturing" = "manufacturing.png" ∧
      iconNameToFile "terminal.svg" = "terminal.svg" :=
  ⟨(iconNameToFile_spec "manufacturing").2.2 (by decide) (by decide),
   (iconNameToFile_spec "terminal.svg").2.1 (by decide) (by decide)⟩

/-- C4.  The facility icon resolver is total: for every manifest and every
feature (including features with a missing or malformed `subparts`
property) it returns a descriptor, and either some configured `by_subparts`
entry matches the feature's canonical subpart key and the resolver returns
that entry's configured descriptor, or no entry matches and the resolver
returns the default descriptor. -/
theorem buildFacilityIconResolver_total (manifest : Manifest) (feature : Feature) :
    (∃ kv, kv ∈ ((manifest.icons.getD emptyIconsConfig).by_subparts.getD []) ∧
        normalizeSubparts kv.1 =
          normalizeSubpartsOpt (feature.properties.bind FacilityProps.subparts) ∧
        buildFacilityIconResolver manifest feature =
          { url := "../" ++ jsOrString (manifest.icons.getD emptyIconsConfig).base_dir "geo-icons"
                ++ "/" ++ iconNameToFile kv.2,
            width := 128, height := 128, anchorY := 128, mask := false }) ∨
    ((∀ kv, kv ∈ ((manifest.icons.getD emptyIconsConfig).by_subparts.getD []) →
        normalizeSubparts kv.1 ≠
          normalizeSubpartsOpt (feature.properties.bind FacilityProps.subparts)) ∧
      buildFacilityIconResolver manifest feature =
        { url := "../" ++ jsOrString (manifest.icons.getD emptyIconsConfig).base_dir "geo-icons"
              ++ "/" ++ iconNameToFile
                (jsOrString (manifest.icons.getD emptyIconsConfig).default "manufacturing"),
          width := 128, height := 128, anchorY := 128, mask := false }) := by
  cases hfind : jsObjectLookup (iconTable (manifest.icons.getD emptyIconsConfig))
      (normalizeSubpartsOpt (feature.properties.bind FacilityProps.subparts)) with
  | none =>
    right
    have hf : (iconTable (manifest.icons.getD emptyIconsConfig)).reverse.find?
        (fun kv => kv.1 == normalizeSubpartsOpt (feature.properties.bind FacilityProps.subparts))
        = none := by
      revert hfind
      unfold jsObjectLookup
      cases (iconTable (manifest.icons.getD emptyIconsConfig)).reverse.find?
          (fun kv => kv.1 == normalizeSubpartsOpt (feature.properties.bind FacilityProps.subparts)) <;>
        simp
    refine ⟨?_, ?_⟩
    · intro kv hmem heq
      have hmem2 : (normalizeSubparts kv.1, iconNameToFile kv.2)
          ∈ iconTable (manifest.icons.getD emptyIconsConfig) := by
        unfold iconTable
        exact List.mem_map_of_mem _ hmem
      have hmem3 := List.mem_reverse.mpr hmem2
      have hnp := List.find?_eq_none.mp hf _ hmem3
      simp only [beq_iff_eq] at hnp
      exact hnp heq
    · rw [buildFacilityIconResolver_eq, hfind]
      exact rfl
  | some file =>
    left
    have hf : ∃ p, (iconTable (manifest.icons.getD emptyIconsConfig)).reverse.find?
        (fun kv => kv.1 == normalizeSubpartsOpt (feature.properties.bind FacilityProps.subparts))
        = some p ∧ p.2 = file := by
      revert hfind
      unfold jsObjectLookup
      cases hv : (iconTable (manifest.icons.getD emptyIconsConfig)).reverse.find?
          (fun kv => kv.1 == normalizeSubpartsOpt (feature.properties.bind FacilityProps.subparts)) with
      | none => simp
      | some p => intro hfind; simp at hfind; exact ⟨p, rfl, hfind⟩
    obtain ⟨p, hp, hpfile⟩ := hf
    have hpred := List.find?_some hp
    have hpmem := List.mem_reverse.mp (List.mem_of_find?_eq_some hp)
    unfold iconTable at hpmem
    obtain ⟨kv, hkvmem, hkveq⟩ := List.mem_map.mp hpmem
    refine ⟨kv, hkvmem, ?_, ?_⟩
    · have h1 : normalizeSubparts kv.1 = p.1 := by rw [← hkveq]
      rw [h1]
      exact beq_iff_eq.mp hpred
    · have h2 : iconNameToFile kv.2 = file := by rw [← hpfile, ← hkveq]
      rw [buildFacilityIconResolver_eq, hfind, ← h2]
      simp [jsOrString, iconNameToFile_ne_empty kv.2]

/-- C10.  When `manifest.icons` is entirely absent, or its `base_dir`,
`default` and `by_subparts` fields are all missing (no configured
mappings), the resolver is still built and total: `base_dir` defaults to
`geo-icons`, the default icon to `manufacturing`, and every facility
resolves to the descriptor with url `../geo-icons/manufacturing.png`,
width 128, height 128, and anchorY 128. -/
theorem buildFacilityIconResolver_defaults (manifest : Manifest) (feature : Feature)
    (h : manifest.icons = none ∨
      ∃ cfg, manifest.icons = some cfg ∧ cfg.base_dir = none ∧ cfg.default = none ∧
        (cfg.by_subparts = none ∨ cfg.by_subparts = some [])) :
    buildFacilityIconResolver manifest feature =
      { url := "../geo-icons/manufacturing.png",
        width := 128, height := 128, anchorY := 128, mask := false } := by
  rcases h with h | ⟨cfg, hc, hb, hd, hs⟩
  · rw [buildFacilityIconResolver_eq, h]
    rfl
  · rw [buildFacilityIconResolver_eq, hc]
    simp only [Option.getD_some]
    have ht : iconTable cfg = [] := by
      unfold iconTable
      rcases hs with hs | hs <;> rw [hs] <;> rfl
    rw [hb, hd, ht]
    exact rfl

/-- C10, witness: a manifest with no `icons` section at all and a feature
with no properties resolve to the all-default descriptor. -/
theorem buildFacilityIconResolver_defaults_witness :
    buildFacilityIconResolver {} {} =
      { url := "../geo-icons/manufacturing.png",
        width := 128, height := 128, anchorY := 128, mask := false } :=
  buildFacilityIconResolver_defaults {} {} (Or.inl rfl)

/-! ### Viewport clamping -/

/-- An interactive view state.  `extra` models any additional fields the
rendering engine attaches to the object; the JS spread `{...viewState}`
copies them unchanged.  `bearing` is optional because one entrypoint's
initial view state leaves its `bearing:` assignment incomplete. -/
structure ViewState where
  longitude : ℚ
  latitude : ℚ
  zoom : ℚ
  minZoom : ℚ
  maxZoom : ℚ
  pitch : ℚ
  bearing : Option ℚ := none
  extra : List (String × ℚ) := []
deriving DecidableEq

/-- The `clamp` arrow function: `Math.min(max, Math.max(min, value))`. -/
def clamp (value minValue maxValue : ℚ) : ℚ :=
  min maxValue (max minValue value)

/-- `clampToVirginia` from `web/map.js`: longitude and latitude are clamped
to the manifest bounds padded by the fixed margin 0.2, zoom to the fixed
deployment range [7.1, 11.5]; all other fields are spread through. -/
def clampToVirginia (viewState : ViewState) (bounds : Bounds) : ViewState :=
  { viewState with
    longitude := clamp viewState.longitude (bounds.minLon - 0.2) (bounds.maxLon + 0.2)
    latitude := clamp viewState.latitude (bounds.minLat - 0.2) (bounds.maxLat + 0.2)
    zoom := clamp viewState.zoom 7.1 11.5 }

/-- `clamp` lands in the interval whenever the interval is nonempty. -/
theorem clamp_mem (value lo hi : ℚ) (h : lo ≤ hi) :
    lo ≤ clamp value lo hi ∧ clamp value lo hi ≤ hi :=
  ⟨le_min h (le_max_left lo value), min_le_left hi (max lo value)⟩

/-- The manifest bounds of the end-to-end scenario in the spec. -/
def virginiaBounds : Bounds :=
  { minLon := -83.68, minLat := 36.54, maxLon := -75.17, maxLat := 39.47 }

/-- The far-out-of-range proposed view state of the end-to-end scenario. -/
def farOutView : ViewState :=
  { longitude := -60, latitude := 50, zoom := 20,
    minZoom := 7.1, maxZoom := 11.5, pitch := 0, bearing := some 0 }

/-- C2.  The viewport clamp is total: for every proposed view state and
every bounds with `minLon < maxLon` and `minLat < maxLat` it returns
longitude within [minLon - 0.2, maxLon + 0.2], latitude within
[minLat - 0.2, maxLat + 0.2] and zoom within the fixed [7.1, 11.5] range,
however far out of range the input is; and on the spec's scenario
(bounds [-83.68, 36.54, -75.17, 39.47], view {longitude -60, latitude 50,
zoom 20}) it returns exactly {longitude -75.17 + 0.2,
latitude 39.47 + 0.2, zoom 11.5}. -/
theorem clampToVirginia_total :
    (∀ (viewState : ViewState) (bounds : Bounds),
        bounds.minLon < bounds.maxLon → bounds.minLat < bounds.maxLat →
        (bounds.minLon - 0.2 ≤ (clampToVirginia viewState bounds).longitude ∧
          (clampToVirginia viewState bounds).longitude ≤ bounds.maxLon + 0.2) ∧
        (bounds.minLat - 0.2 ≤ (clampToVirginia viewState bounds).latitude ∧
          (clampToVirginia viewState bounds).latitude ≤ bounds.maxLat + 0.2) ∧
        (7.1 ≤ (clampToVirginia viewState bounds).zoom ∧
          (clampToVirginia viewState bounds).zoom ≤ 11.5)) ∧
    ((clampToVirginia farOutView virginiaBounds).longitude = -75.17 + 0.2 ∧
      (clampToVirginia farOutView virginiaBounds).latitude = 39.47 + 0.2 ∧
      (clampToVirginia farOutView virginiaBounds).zoom = 11.5) := by
  constructor
  · intro viewState bounds hlon hlat
    refine ⟨clamp_mem _ _ _ (by linarith), clamp_mem _ _ _ (by linarith),
      clamp_mem _ _ _ (by norm_num)⟩
  · refine ⟨?_, ?_, ?_⟩ <;>
      norm_num [clampToVirginia, clamp, farOutView, virginiaBounds, min_def, max_def]

/-- C2, witness: the general clamping bounds applied to the spec scenario's
concrete view state and bounds. -/
theorem clampToVirginia_total_witness :
    (virginiaBounds.minLon - 0.2 ≤ (clampToVirginia farOutView virginiaBounds).longitude ∧
      (clampToVirginia farOutView virginiaBounds).longitude ≤ virginiaBounds.maxLon + 0.2) ∧
    (virginiaBounds.minLat - 0.2 ≤ (clampToVirginia farOutView virginiaBounds).latitude ∧
      (clampToVirginia farOutView virginiaBounds).latitude ≤ virginiaBounds.maxLat + 0.2) ∧
    (7.1 ≤ (clampToVirginia farOutView virginiaBounds).zoom ∧
      (clampToVirginia farOutView virginiaBounds).zoom ≤ 11.5) :=
  clampToVirginia_total.1 farOutView virginiaBounds (by norm_num [virginiaBounds])
    (by norm_num [virginiaBounds])

/-- C9.  The viewport clamp changes only longitude, latitude and zoom: the
pitch, bearing, minZoom, maxZoom and every additional field of the returned
view state equal those of the input, and (the embedding being pure) the
input record itself is never mutated — the JS spread builds a fresh
object. -/
theorem clampToVirginia_frame (viewState : ViewState) (bounds : Bounds) :
    (clampToVirginia viewState bounds).pitch = viewState.pitch ∧
    (clampToVirginia viewState bounds).bearing = viewState.bearing ∧
    (clampToVirginia viewState bounds).minZoom = viewState.minZoom ∧
    (clampToVirginia viewState bounds).maxZoom = viewState.maxZoom ∧
    (clampToVirginia viewState bounds).extra = viewState.extra :=
  ⟨rfl, rfl, rfl, rfl, rfl⟩

/-! ### Tooltip formatting -/

/-- Digit grouping for `toLocaleString('en-US')`, working over the reversed
digit list: after every third digit a comma is inserted (when more digits
follow). -/
def groupDigitsRev : List Char → Nat → List Char
  | [], _ => []
  | c :: cs, k =>
    if k == 3 then ',' :: c :: groupDigitsRev cs 1
    else c :: groupDigitsRev cs (k + 1)

/-- A natural number rendered in decimal with en-US thousands grouping. -/
def groupedNatString (n : Nat) : String :=
  ⟨(groupDigitsRev (Nat.toDigits 10 n).reverse 0).reverse⟩

/-- `formatTons` from `web/map.js`:
`Number(value || 0).toLocaleString('en-US', {maximumFractionDigits: 0})`.
An absent value becomes 0; the magnitude is rounded to the nearest integer
with ties away from zero (the locale default) and grouped in thousands,
with the sign of a negative input kept. -/
def formatTons (value : Option ℚ) : String :=
  let n : ℚ := value.getD 0
  (if n < 0 then "-" else "") ++ groupedNatString (⌊|n| + 1 / 2⌋).toNat

/-- Evaluation rule for `formatTons` on a non-negative quantity whose
half-up rounding is `m`. -/
theorem formatTons_eval (value : Option ℚ) (q : ℚ) (m : ℕ) (hv : value.getD 0 = q)
    (h0 : 0 ≤ q) (hm : (m : ℚ) ≤ q + 1 / 2) (hm2 : q + 1 / 2 < m + 1) :
    formatTons value = groupedNatString m := by
  unfold formatTons
  rw [hv]
  show (if q < 0 then "-" else "") ++ groupedNatString (⌊|q| + 1 / 2⌋).toNat = groupedNatString m
  rw [if_neg (not_lt.mpr h0), abs_of_nonneg h0]
  have hf : (⌊q + 1 / 2⌋ : ℤ) = (m : ℤ) := by
    rw [Int.floor_eq_iff]
    constructor
    · exact_mod_cast hm
    · exact_mod_cast hm2
  rw [hf, Int.toNat_natCast]
  exact rfl

/-- Evaluation rule for `formatTons` on a negative quantity whose rounded
magnitude is `m`. -/
theorem formatTons_neg_eval (value : Option ℚ) (q : ℚ) (m : ℕ) (hv : value.getD 0 = q)
    (h0 : q < 0) (hm : (m : ℚ) ≤ -q + 1 / 2) (hm2 : -q + 1 / 2 < m + 1) :
    formatTons value = "-" ++ groupedNatString m := by
  unfold formatTons
  rw [hv]
  show (if q < 0 then "-" else "") ++ groupedNatString (⌊|q| + 1 / 2⌋).toNat
    = "-" ++ groupedNatString m
  rw [if_pos h0, abs_of_neg h0]
  have hf : (⌊-q + 1 / 2⌋ : ℤ) = (m : ℤ) := by
    rw [Int.floor_eq_iff]
    constructor
    · exact_mod_cast hm
    · exact_mod_cast hm2
  rw [hf, Int.toNat_natCast]

/-- The empty `properties` bag, JS `object.properties || {}`. -/
def emptyProps : FacilityProps := {}

/-- A pick event as handed to `getTooltip`: the picked object (if any) and
the id of the layer it came from. -/
structure Pick where
  object : Option Feature
  layerId : String

/-- Tooltip content: rich html for the facility layer, plain text
otherwise. -/
inductive TooltipContent
  | html (content : String)
  | text (content : String)
deriving DecidableEq

/-- `getTooltip` from `web/map.js`: null when nothing is picked; the
facility layer gets name/subparts/quantity html with falsy fallbacks; any
other layer gets its id as plain text. -/
def getTooltip (pick : Pick) : Option TooltipContent :=
  match pick.object with
  | none => none
  | some obj =>
    if pick.layerId = "ghg-facilities" then
      let props := obj.properties.getD emptyProps
      some (TooltipContent.html
        ("<strong>" ++ jsOrString props.facility_name "Facility"
          ++ "</strong><br/>Subparts: " ++ jsOrString props.subparts "N/A"
          ++ "<br/>GHG: " ++ formatTons props.ghg_quantity_metric_tons_co2e ++ " tCO2e"))
    else some (TooltipContent.text pick.layerId)

/-- C6, counterexample.  A negative emitted quantity is not treated as
absent: `formatTons` renders -5 as "-5", not as "0". -/
theorem formatTons_negative_counterexample : formatTons (some (-5)) ≠ "0" := by
  have h : formatTons (some (-5)) = "-" ++ groupedNatString 5 :=
    formatTons_neg_eval _ (-5) 5 rfl (by norm_num) (by norm_num) (by norm_num)
  rw [h]
  decide

/-- C6, amended.  The tooltip returns null when no object is picked; a pick
on any non-facility layer yields the layer id as plain text; a pick on the
facility layer yields html with the facility name (literal "Facility" when
absent or empty), the subparts string as reported ("N/A" when absent or
empty) and the emitted quantity formatted with thousands grouping and zero
decimal places — 1234567.4 displays as "1,234,567" and a missing, null or
zero quantity displays as "0" — while a negative quantity keeps its sign
and is formatted as-is (-5 displays as "-5"). -/
theorem getTooltip_spec :
    (∀ pick : Pick, pick.object = none → getTooltip pick = none) ∧
    (∀ (obj : Feature) (layerId : String), layerId ≠ "ghg-facilities" →
      getTooltip { object := some obj, layerId := layerId }
        = some (TooltipContent.text layerId)) ∧
    (∀ obj : Feature,
      getTooltip { object := some obj, layerId := "ghg-facilities" }
        = some (TooltipContent.html
          ("<strong>" ++ jsOrString (obj.properties.getD emptyProps).facility_name "Facility"
            ++ "</strong><br/>Subparts: "
            ++ jsOrString (obj.properties.getD emptyProps).subparts "N/A"
            ++ "<br/>GHG: "
            ++ formatTons (obj.properties.getD emptyProps).ghg_quantity_metric_tons_co2e
            ++ " tCO2e"))) ∧
    formatTons (some (1234567.4 : ℚ)) = "1,234,567" ∧
    formatTons none = "0" ∧
    formatTons (some 0) = "0" ∧
    formatTons (some (-5)) = "-5" := by
  refine ⟨?_, ?_, ?_, ?_, ?_, ?_, ?_⟩
  · intro pick h
    unfold getTooltip
    rw [h]
  · intro obj layerId h
    unfold getTooltip
    simp only
    rw [if_neg h]
  · intro obj
    rfl
  · have h : formatTons (some (1234567.4 : ℚ)) = groupedNatString 1234567 :=
      formatTons_eval _ 1234567.4 1234567 rfl (by norm_num) (by norm_num) (by norm_num)
    rw [h]
    decide
  · have h : formatTons none = groupedNatString 0 :=
      formatTons_eval _ 0 0 rfl (by norm_num) (by norm_num) (by norm_num)
    rw [h]
    decide
  · have h : formatTons (some 0) = groupedNatString 0 :=
      formatTons_eval _ 0 0 rfl (by norm_num) (by norm_num) (by norm_num)
    rw [h]
    decide
  · have h : formatTons (some (-5)) = "-" ++ groupedNatString 5 :=
      formatTons_neg_eval _ (-5) 5 rfl (by norm_num) (by norm_num) (by norm_num)
    rw [h]
    decide

/-- C6, witness: the null-pick and non-facility-layer branches evaluated at
concrete picks. -/
theorem getTooltip_spec_witness :
    getTooltip { object := none, layerId := "ports" } = none ∧
      getTooltip { object := some {}, layerId := "ports" }
        = some (TooltipContent.text "ports") :=
  ⟨getTooltip_spec.1 { object := none, layerId := "ports" } rfl,
   getTooltip_spec.2.1 {} "ports" (by decide)⟩

/-! ### Manifest-to-layer composition

The main IIFE of `web/map.js` after the network loads: manifest field
access, the initial view state, and the ordered layer list.  Fetches are
abstracted by a `loaded` function from data paths to parsed GeoJSON (a
failed fetch raises a `LoadError` before this code runs and is out of
scope here).  The error taxonomy of the spec is the result type; the
JS runtime errors raised by accessing a property of `undefined` are
`typeError`. -/

/-- A parsed GeoJSON document; only `features` is read. -/
structure GeoJson where
  features : Option (List Feature) := none

/-- The failure taxonomy of the spec (`LoadError`, `ParseError`,
`ConfigError`) together with the JS `TypeError` the source can actually
raise during composition. -/
inductive JsError
  | typeError
  | loadError
  | parseError
  | configError
deriving DecidableEq

/-- The constructor used for a layer. -/
inductive LayerKind
  | geojson
  | terrain
  | icon
deriving DecidableEq

/-- A layer's data source: a path template or pre-fetched features. -/
inductive LayerData
  | path (dataPath : String)
  | features (featureList : List Feature)
deriving DecidableEq

/-- A layer descriptor: the properties of the source's layer constructor
calls that the spec constrains (id, kind, data source, mask wiring,
elevation scale, pickability). -/
structure LayerDesc where
  id : String
  kind : LayerKind
  data : Option LayerData := none
  operation : Option String := none
  bounds : Option Bounds := none
  maskId : Option String := none
  extensionsCount : Nat := 0
  elevationScale : Option ℚ := none
  pickable : Bool := false
deriving DecidableEq

/-- What composition hands to the rendering engine: the initial view state
and the ordered layer sequence. -/
structure ComposeResult where
  viewState : ViewState
  layers : List LayerDesc
deriving DecidableEq

/-- A data path template `../${file}`: JS string interpolation renders an
absent file entry as the literal text `undefined`. -/
def jsDataPath (filePath : Option String) : String :=
  "../" ++ filePath.getD "undefined"

/-- JS `x || fallback` on a possibly-absent number: an absent value and 0
(both falsy) select the fallback. -/
def jsOrNum (value : Option ℚ) (fallback : ℚ) : ℚ :=
  match value with
  | none => fallback
  | some x => if x = 0 then fallback else x

/-- The composition pass of the main IIFE in `web/map.js`: reading
`manifest.files.ghg` (and later `manifest.center[0]`) on an absent object
raises a `TypeError`; `manifest.bounds` flows through unchecked; the layer
list is built in its fixed source order.  The source's initial view state
has an incomplete `bearing:` assignment, modelled as an absent bearing.
The facility layer's per-feature icon accessor is
`buildFacilityIconResolver manifest`, verified separately. -/
def compose (manifest : Manifest) (loaded : String → GeoJson)
    (maskExtensionAvailable : Bool) : Except JsError ComposeResult :=
  match manifest.files with
  | none => Except.error JsError.typeError
  | some files =>
    let ghgGeoJson := loaded (jsDataPath files.ghg)
    let boundaryGeoJson := loaded (jsDataPath files.boundary)
    let ghgFeatures := ghgGeoJson.features.getD []
    let boundaryFeatures := boundaryGeoJson.features.getD []
    let terrainBounds := manifest.bounds
    let terrainExtensionsCount := if maskExtensionAvailable then 1 else 0
    match manifest.center with
    | none => Except.error JsError.typeError
    | some center =>
      Except.ok
        { viewState :=
            { longitude := center.1, latitude := center.2, zoom := 7.4,
              minZoom := 7.1, maxZoom := 11.5, pitch := 0,
              bearing := none, extra := [] },
          layers :=
            [ { id := "va-mask", kind := LayerKind.geojson,
                data := some (LayerData.features boundaryFeatures),
                operation := some "mask" },
              { id := "terrain", kind := LayerKind.terrain,
                bounds := terrainBounds,
                extensionsCount := terrainExtensionsCount,
                maskId := some "va-mask",
                operation := some "terrain+draw",
                elevationScale := some (jsOrNum manifest.terrain_exaggeration 1.8) },
              { id := "boundary", kind := LayerKind.geojson,
                data := some (LayerData.features boundaryFeatures) },
              { id := "pipelines", kind := LayerKind.geojson,
                data := some (LayerData.path (jsDataPath files.pipelines)) },
              { id := "railroads", kind := LayerKind.geojson,
                data := some (LayerData.path (jsDataPath files.railroads)) },
              { id := "primary-roads", kind := LayerKind.geojson,
                data := some (LayerData.path (jsDataPath files.primary_roads)) },
              { id := "incorporated-places", kind := LayerKind.geojson,
                data := some (LayerData.path (jsDataPath files.incorporated_places)) },
              { id := "ports", kind := LayerKind.geojson,
                data := some (LayerData.path (jsDataPath files.principal_ports)),
                pickable := true },
              { id := "ghg-facilities", kind := LayerKind.icon,
                data := some (LayerData.features ghgFeatures),
                pickable := true } ] }

/-- Whether composition produced a result rather than an error. -/
def composeSucceeded (result : Except JsError ComposeResult) : Bool :=
  match result with
  | Except.ok _ => true
  | Except.error _ => false

/-- A fully-populated `files` mapping for concrete scenarios. -/
def demoFiles : ManifestFiles :=
  { boundary := some "output/deck-data/boundary.json",
    pipelines := some "output/deck-data/pipelines.json",
    railroads := some "output/deck-data/railroads.json",
    primary_roads := some "output/deck-data/primary-roads.json",
    incorporated_places := some "output/deck-data/incorporated-places.json",
    principal_ports := some "output/deck-data/ports.json",
    ghg := some "output/deck-data/ghg.json" }

/-- A loader whose every fetch parses to an empty feature collection. -/
def emptyLoaded : String → GeoJson :=
  fun _ => { features := some [] }

/-- An otherwise-valid manifest that lacks `bounds`. -/
def noBoundsManifest : Manifest :=
  { files := some demoFiles, bounds := none, center := some (-78.5, 37.5) }

/-- An otherwise-valid manifest that lacks `center`. -/
def noCenterManifest : Manifest :=
  { files := some demoFiles, bounds := some virginiaBounds }

/-- A fully-populated manifest with an explicit terrain exaggeration. -/
def demoManifest : Manifest :=
  { files := some demoFiles, bounds := some virginiaBounds,
    center := some (-78.5, 37.5), terrain_exaggeration := some 2.5 }

/-- C3, counterexample.  Composing from a manifest that lacks `bounds` but
is otherwise valid does not fail at all — the undefined bounds flow through
to the terrain layer — so in particular it does not fail with
`ConfigError`. -/
theorem compose_missing_bounds_counterexample :
    composeSucceeded (compose noBoundsManifest emptyLoaded true) = true := rfl

/-- C3, amended.  The source performs no manifest validation, so
composition never fails with `ConfigError`: a manifest lacking `files` or
lacking `center` makes composition fail with a JS `TypeError` from the
property access on `undefined`, and those are the only composition
failures; a manifest lacking `bounds` composes successfully. -/
theorem compose_error_classification (manifest : Manifest) (loaded : String → GeoJson)
    (maskExtensionAvailable : Bool) :
    (compose manifest loaded maskExtensionAvailable ≠ Except.error JsError.configError) ∧
    (compose manifest loaded maskExtensionAvailable = Except.error JsError.typeError ↔
      manifest.files = none ∨ manifest.center = none) := by
  cases hf : manifest.files with
  | none => simp [compose, hf]
  | some files =>
    cases hc : manifest.center with
    | none => simp [compose, hf, hc]
    | some center => simp [compose, hf, hc]

/-- C3, witness for the amended theorem: a manifest lacking `center` fails
with a `TypeError`. -/
theorem compose_error_classification_witness :
    compose noCenterManifest emptyLoaded true = Except.error JsError.typeError :=
  (compose_error_classification noCenterManifest emptyLoaded true).2.mpr (Or.inr rfl)

/-- C5.  Whenever composition succeeds, the layer sequence has the fixed
order: the mask layer precedes the terrain layer, the terrain layer
precedes the boundary outline layer, followed by the infrastructure
overlays pipelines, railroads, primary roads, incorporated places, then
the ports point overlay, with the facility overlay last. -/
theorem compose_layer_order (manifest : Manifest) (loaded : String → GeoJson)
    (maskExtensionAvailable : Bool) (result : ComposeResult)
    (h : compose manifest loaded maskExtensionAvailable = Except.ok result) :
    result.layers.map LayerDesc.id =
      ["va-mask", "terrain", "boundary", "pipelines", "railroads",
        "primary-roads", "incorporated-places", "ports", "ghg-facilities"] := by
  cases hf : manifest.files with
  | none => simp [compose, hf] at h
  | some files =>
    cases hc : manifest.center with
    | none => simp [compose, hf, hc] at h
    | some center =>
      simp only [compose, hf, hc] at h
      injection h with h2
      rw [← h2]
      exact rfl

/-- The fallback view state used to extract a successful composition. -/
def fallbackViewState : ViewState :=
  { longitude := 0, latitude := 0, zoom := 0, minZoom := 0, maxZoom := 0, pitch := 0 }

/-- The composition of the fully-populated demo manifest. -/
def demoComposeResult : ComposeResult :=
  (compose demoManifest emptyLoaded true).toOption.getD
    { viewState := fallbackViewState, layers := [] }

/-- C5, witness: the demo manifest composes and its layer ids come out in
the fixed order. -/
theorem compose_layer_order_witness :
    demoComposeResult.layers.map LayerDesc.id =
      ["va-mask", "terrain", "boundary", "pipelines", "railroads",
        "primary-roads", "incorporated-places", "ports", "ghg-facilities"] :=
  compose_layer_order demoManifest emptyLoaded true demoComposeResult rfl

/-- C7.  Whenever composition succeeds, the second layer is the terrain
layer and its elevation scale is `manifest.terrain_exaggeration || 1.8`:
it equals `manifest.terrain_exaggeration` whenever that field is present
and non-zero (truthy), and equals 1.8 whenever the field is absent or
zero (falsy). -/
theorem terrain_elevationScale_spec (manifest : Manifest) (loaded : String → GeoJson)
    (maskExtensionAvailable : Bool) (result : ComposeResult)
    (h : compose manifest loaded maskExtensionAvailable = Except.ok result) :
    ((result.layers.map LayerDesc.id)[1]? = some "terrain") ∧
    ((result.layers.map LayerDesc.elevationScale)[1]?
        = some (some (jsOrNum manifest.terrain_exaggeration 1.8))) ∧
    (∀ x : ℚ, manifest.terrain_exaggeration = some x → x ≠ 0 →
      jsOrNum manifest.terrain_exaggeration 1.8 = x) ∧
    ((manifest.terrain_exaggeration = none ∨ manifest.terrain_exaggeration = some 0) →
      jsOrNum manifest.terrain_exaggeration 1.8 = 1.8) := by
  refine ⟨?_, ?_, ?_, ?_⟩
  · cases hf : manifest.files with
    | none => simp [compose, hf] at h
    | some files =>
      cases hc : manifest.center with
      | none => simp [compose, hf, hc] at h
      | some center =>
        simp only [compose, hf, hc] at h
        injection h with h2
        rw [← h2]
        exact rfl
  · cases hf : manifest.files with
    | none => simp [compose, hf] at h
    | some files =>
      cases hc : manifest.center with
      | none => simp [compose, hf, hc] at h
      | some center =>
        simp only [compose, hf, hc] at h
        injection h with h2
        rw [← h2]
        exact rfl
  · intro x hx hx0
    rw [hx]
    show (if x = 0 then (1.8 : ℚ) else x) = x
    rw [if_neg hx0]
  · rintro (hx | hx) <;> rw [hx]
    · rfl
    · show (if (0 : ℚ) = 0 then (1.8 : ℚ) else 0) = 1.8
      rw [if_pos rfl]

/-- C7, witness: the demo manifest configures `terrain_exaggeration` 2.5
and the composed terrain layer carries elevation scale 2.5. -/
theorem terrain_elevationScale_spec_witness :
    (demoComposeResult.layers.map LayerDesc.id)[1]? = some "terrain" ∧
      (demoComposeResult.layers.map LayerDesc.elevationScale)[1]? = some (some (2.5 : ℚ)) := by
  have h := terrain_elevationScale_spec demoManifest emptyLoaded true demoComposeResult rfl
  refine ⟨h.1, ?_⟩
  have h3 : jsOrNum demoManifest.terrain_exaggeration 1.8 = 2.5 :=
    h.2.2.1 2.5 rfl (by norm_num)
  rw [h.2.1, h3]

end VaGhgDashboard
